import Mathlib

/-!
Shallow embedding of the realm-graphql authentication and token-refresh
subsystem: `credentials.ts`, `user.ts`, the `AuthenticationHelper`
(authenticate / refreshAccessToken / revoke) and the endpoint derivation
and refresh loop of `GraphqlConfig.ts`.

JavaScript nullable strings are modelled as `Option String` (with `none`
for `null`/`undefined`), nullable numbers as `Option Int`, and truthiness
checks are made explicit.  Network round-trips are modelled by passing the
server response as an explicit argument; a result that is independent of
that argument corresponds to a code path that never reaches the `fetch`
call.  Thrown JS errors are modelled with `Except`.
-/

namespace RealmGraphQL

/-- JS truthiness of a nullable string: `null`/`undefined` and `""` are falsy. -/
def jsTruthyStr : Option String → Bool
  | none => false
  | some s => s != ""

/-- JS truthiness of a nullable number: `null`/`undefined` and `0` are falsy. -/
def jsTruthyNum : Option Int → Bool
  | none => false
  | some v => v != 0

/-- JS arithmetic coercion: `null` behaves as `0` in `-`. -/
def jsNumOr0 : Option Int → Int
  | none => 0
  | some v => v

/-- JS template-literal rendering of a nullable string: `null` renders as "null". -/
def jsTemplateStr : Option String → String
  | none => "null"
  | some s => s

/-- The `user_info` payload embedded by `Credentials.usernamePassword`. -/
structure UserInfo where
  register : Bool
  password : String
deriving Repr, DecidableEq

/-- `credentials.ts`: a credentials value.  `app_id` is `none` when the field is
absent (the factories never set it; `AuthenticationHelper.authenticate` sets it
to `""` on the network path via `(credentials as any).app_id = ''`). -/
structure Credentials where
  data : Option String
  provider : String
  user_info : Option UserInfo := none
  app_id : Option String := none
deriving Repr, DecidableEq

/-- `Credentials.facebook(facebookToken)`. -/
def Credentials.facebook (facebookToken : String) : Credentials :=
  { data := some facebookToken, provider := "facebook" }

/-- `Credentials.google(googleToken)`. -/
def Credentials.google (googleToken : String) : Credentials :=
  { data := some googleToken, provider := "google" }

/-- `Credentials.usernamePassword(username, password, createUser?)`; the JS
`createUser || false` is `Option.getD createUser false`. -/
def Credentials.usernamePassword (username : String) (password : String)
    (createUser : Option Bool) : Credentials :=
  { data := some username, provider := "password",
    user_info := some { register := createUser.getD false, password := password } }

/-- `Credentials.azureAD(adToken)`. -/
def Credentials.azureAD (adToken : String) : Credentials :=
  { data := some adToken, provider := "azuread" }

/-- `Credentials.jwt(jwtToken)`. -/
def Credentials.jwt (jwtToken : String) : Credentials :=
  { data := some jwtToken, provider := "jwt" }

/-- `Credentials.admin(adminToken)`. -/
def Credentials.admin (adminToken : String) : Credentials :=
  { data := some adminToken, provider := "__admin" }

/-- `Credentials.anonymous()`. -/
def Credentials.anonymous : Credentials :=
  { data := none, provider := "__anonymous" }

/-- `user.ts`: a user value. `server` is `""` when unset (JS `!user.server`
is truthy for `null`/`undefined`/`""`).  `isTokenUser` models the hidden
`(result as any).isTokenUser = true` flag set for admin-token users. -/
structure User where
  identity : Option String
  isAdmin : Bool
  server : String
  token : Option String
  isTokenUser : Bool := false
deriving Repr, DecidableEq

/-- `AuthenticationHelper`: an access token; `token` is `null` for the
anonymous short-circuit and `expires` is `null` when the token never expires. -/
structure AccessToken where
  token : Option String
  expires : Option Int
deriving Repr, DecidableEq

/-- Thrown JS errors: `jsError` models `throw new Error(message)`;
`authError` models the thrown `{name: AuthError, status, statusText, body}`
object (the parsed response body it carries is never inspected by the code
under verification and is omitted). -/
inductive JsErr where
  | jsError (message : String)
  | authError (status : Int) (statusText : String)
deriving Repr, DecidableEq

/-- `token_data` of the refresh response body. -/
structure TokenData where
  expires : Int
deriving Repr, DecidableEq

/-- `access_token` of the refresh response body. -/
structure AccessTokenJson where
  token : String
  token_data : TokenData
deriving Repr, DecidableEq

/-- Parsed JSON body of a response from `POST /auth` for a refresh. -/
structure RefreshResponseBody where
  access_token : AccessTokenJson
deriving Repr, DecidableEq

/-- A response from the refresh endpoint (status + parsed JSON body). -/
structure RefreshResponse where
  status : Int
  statusText : String
  body : RefreshResponseBody
deriving Repr, DecidableEq

/-- `token_data` of the login response body. -/
structure RefreshTokenData where
  identity : String
  is_admin : Bool
deriving Repr, DecidableEq

/-- `refresh_token` of the login response body. -/
structure RefreshTokenJson where
  token : String
  token_data : RefreshTokenData
deriving Repr, DecidableEq

/-- Parsed JSON body of a response from `POST /auth` for a login. -/
structure AuthResponseBody where
  refresh_token : RefreshTokenJson
deriving Repr, DecidableEq

/-- A response from the login endpoint (status + parsed JSON body). -/
structure AuthResponse where
  status : Int
  statusText : String
  body : AuthResponseBody
deriving Repr, DecidableEq

/-- A response from the revocation endpoint. -/
structure RevokeResponse where
  status : Int
  statusText : String
deriving Repr, DecidableEq

/-! ### String utilities: JS `String.replace` with a string pattern, URI model -/

/-- Does the list start with the given pattern? -/
def listStartsWith : List Char → List Char → Bool
  | _, [] => true
  | [], _ :: _ => false
  | a :: as, b :: bs => a = b && listStartsWith as bs

/-- Index of the first occurrence of `pat` in `s`, if any. -/
def firstIdxList : List Char → List Char → Option Nat
  | [], pat => if listStartsWith [] pat then some 0 else none
  | c :: rest, pat =>
    if listStartsWith (c :: rest) pat then some 0
    else (firstIdxList rest pat).map (· + 1)

/-- Replace the first occurrence of `pat` in `s` by `rep` (JS
`String.prototype.replace` with a string pattern replaces only the first
occurrence). -/
def replaceFirstList : List Char → List Char → List Char → List Char
  | [], pat, rep => if listStartsWith [] pat then rep else []
  | c :: rest, pat, rep =>
    if listStartsWith (c :: rest) pat then rep ++ (c :: rest).drop pat.length
    else c :: replaceFirstList rest pat rep

/-- JS `s.replace(pat, rep)` for a string `pat`: first occurrence only. -/
def jsReplaceFirst (s pat rep : String) : String :=
  String.mk (replaceFirstList s.data pat.data rep.data)

/-- Split `s` at the first occurrence of `pat`, if any. -/
def splitOnFirstList (s pat : List Char) : Option (List Char × List Char) :=
  match firstIdxList s pat with
  | none => none
  | some i => some (s.take i, s.drop (i + pat.length))

/-- UTF-8 bytes of a character, as `Nat`s. -/
def utf8Bytes (c : Char) : List Nat :=
  let n := c.toNat
  if n < 0x80 then [n]
  else if n < 0x800 then [0xC0 + n / 64, 0x80 + n % 64]
  else if n < 0x10000 then [0xE0 + n / 4096, 0x80 + (n / 64) % 64, 0x80 + n % 64]
  else [0xF0 + n / 262144, 0x80 + (n / 4096) % 64, 0x80 + (n / 64) % 64, 0x80 + n % 64]

/-- Bytes kept verbatim by urijs strict percent-encoding (`URI.encode` =
`encodeURIComponent` additionally escaping `!`, `(`, `)`, `*` and the
apostrophe): exactly ALPHA / DIGIT / `-` / `_` / `.` / `~`. -/
def isUnreservedByte (b : Nat) : Bool :=
  (65 ≤ b && b ≤ 90) || (97 ≤ b && b ≤ 122) || (48 ≤ b && b ≤ 57) ||
  b = 45 || b = 95 || b = 46 || b = 126

/-- Uppercase hex digit for `n < 16`. -/
def hexDigitChar (n : Nat) : Char :=
  if n < 10 then Char.ofNat (48 + n) else Char.ofNat (55 + n)

/-- Percent-encode one byte unless it is unreserved. -/
def encodeByte (b : Nat) : List Char :=
  if isUnreservedByte b then [Char.ofNat b]
  else ['%', hexDigitChar (b / 16), hexDigitChar (b % 16)]

/-- urijs strict component encoding of a string (UTF-8, percent-encoded). -/
def uriEncode (s : String) : String :=
  String.mk (List.flatten ((s.data.map utf8Bytes).flatten.map encodeByte))

/-- The parts of a URI that the code reads or writes: scheme, authority
(host and port) and path. -/
structure ParsedURI where
  scheme : String
  authority : String
  path : String
deriving Repr, DecidableEq

/-- `new URI(s)` for the shapes used by the code: `scheme://authority/path`.
urijs normalizes the protocol to lowercase.  A string without `://` is
modelled with an empty scheme and authority (such a value never passes the
scheme checks, which is all the code does with it). -/
def parseURI (s : String) : ParsedURI :=
  match splitOnFirstList s.data "://".data with
  | none => { scheme := "", authority := "", path := s }
  | some (sch, rest) =>
    match firstIdxList rest ['/'] with
    | none => { scheme := String.mk (sch.map Char.toLower), authority := String.mk rest,
                path := "" }
    | some i => { scheme := String.mk (sch.map Char.toLower),
                  authority := String.mk (rest.take i), path := String.mk (rest.drop i) }

/-- `uri.path(p)`. -/
def withPath (u : ParsedURI) (p : String) : ParsedURI := { u with path := p }

/-- `uri.scheme(s)` (also covers `uri.clone().scheme(s)`: the clone only
guards the original from mutation, which the functional model has for free). -/
def withScheme (u : ParsedURI) (sch : String) : ParsedURI := { u with scheme := sch }

/-- Join strings with `/` separators. -/
def joinWithSlash : List String → String
  | [] => ""
  | [s] => s
  | s :: rest => s ++ "/" ++ joinWithSlash rest

/-- `uri.segmentCoded(segments)`: sets the path to the percent-encoded
segments joined by `/`. -/
def segmentCoded (u : ParsedURI) (segs : List String) : ParsedURI :=
  { u with path := "/" ++ joinWithSlash (segs.map uriEncode) }

/-- `uri.toString()`. -/
def uriToString (u : ParsedURI) : String :=
  u.scheme ++ "://" ++ u.authority ++ u.path

/-! ### AuthenticationHelper -/

namespace AuthenticationHelper

/-- `AuthenticationHelper.authenticate(credentials, server)`.  The login
endpoint's response is passed explicitly; a result that does not depend on
it corresponds to a run that never reaches the `fetch` call.  The returned
pair is (thrown-or-returned result, the credentials object after the call):
on the network path the code executes `(credentials as any).app_id = ''`
on the caller's object before serializing it. -/
def authenticate (credentials : Credentials) (server : String) (response : AuthResponse) :
    Except JsErr User × Credentials :=
  let authUri := withPath (parseURI server) "/auth"
  if authUri.scheme != "http" && authUri.scheme != "https" then
    (.error (.jsError ("The server scheme must be http(s). Got: " ++ authUri.scheme ++ " ")),
     credentials)
  else if credentials.provider = "__anonymous" then
    (.ok { identity := none, isAdmin := false, server := server, token := none }, credentials)
  else if credentials.provider = "__admin" then
    (.ok { identity := some "__admin", isAdmin := true, server := server,
           token := credentials.data, isTokenUser := true }, credentials)
  else
    let creds := { credentials with app_id := some "" }
    if response.status != 200 then
      (.error (.authError response.status response.statusText), creds)
    else
      (.ok { identity := some response.body.refresh_token.token_data.identity,
             isAdmin := response.body.refresh_token.token_data.is_admin,
             server := server,
             token := some response.body.refresh_token.token }, creds)

/-- The guard under which `authenticate` reaches its `fetch` call: valid
scheme and neither of the two provider short-circuits. -/
def authenticateReachesFetch (credentials : Credentials) (server : String) : Bool :=
  ((parseURI server).scheme == "http" || (parseURI server).scheme == "https") &&
  credentials.provider != "__anonymous" && credentials.provider != "__admin"

/-- `AuthenticationHelper.refreshAccessToken(user, realmPath)`.  The refresh
endpoint's response is passed explicitly.  `realmPath` only enters the
serialized request body, which the model does not otherwise observe. -/
def refreshAccessToken (user : User) (realmPath : String) (response : RefreshResponse) :
    Except JsErr AccessToken :=
  if user.server = "" then .error (.jsError "Server for user must be specified")
  else if user.identity.isNone && user.token.isNone then
    .ok { token := none, expires := none }
  else if user.isTokenUser then
    .ok { token := user.token, expires := none }
  else if response.status != 200 then
    .error (.authError response.status response.statusText)
  else
    .ok { token := some response.body.access_token.token,
          expires := some (response.body.access_token.token_data.expires * 1000) }

/-- The guard under which `refreshAccessToken` reaches its `fetch` call. -/
def refreshReachesFetch (user : User) : Bool :=
  user.server != "" && !(user.identity.isNone && user.token.isNone) && !user.isTokenUser

/-- `AuthenticationHelper.revoke(user)`. -/
def revoke (user : User) (response : RevokeResponse) : Except JsErr Unit :=
  if user.server = "" then .error (.jsError "Server for user must be specified")
  else if user.isTokenUser then .ok ()
  else if response.status != 200 then
    .error (.authError response.status response.statusText)
  else .ok ()

end AuthenticationHelper

/-- `user.ts` `User.logOut()`: awaits `revoke` inside `try { } catch { }`
(its outcome, success or thrown error, is passed explicitly and ignored),
then assigns `this.token = null`.  The function is total: no error escapes. -/
def User.logOut (user : User) (revokeResult : Except JsErr Unit) : User :=
  match revokeResult with
  | .ok _ => { user with token := none }
  | .error _ => { user with token := none }

/-! ### GraphQLConfig -/

namespace GraphQLConfig

/-- The root-placeholder rewrite in `GraphQLConfig.create`:
`realmPath.replace(/~/, /identity/)` — a JS string-pattern replace, so only
the first occurrence of the exact substring `/~/` is substituted; a `null`
identity renders as the text `null` in the template literal. -/
def rewriteRealmPath (realmPath : String) (identity : Option String) : String :=
  jsReplaceFirst realmPath "/~/" ("/" ++ jsTemplateStr identity ++ "/")

/-- Endpoint derivation in the `GraphQLConfig` constructor, applied to the
(already rewritten) realm path: `new URI(user.server).segmentCoded([graphql,
realmPath])`, then the `http → ws` / `https → wss` scheme switch, any other
scheme throwing. Returns `(httpEndpoint, webSocketEndpoint)`. -/
def deriveEndpoints (server : String) (realmPath : String) :
    Except JsErr (String × String) :=
  let graphQLEndpoint := segmentCoded (parseURI server) ["graphql", realmPath]
  let httpEndpoint := uriToString graphQLEndpoint
  if graphQLEndpoint.scheme = "http" then
    .ok (httpEndpoint, uriToString (withScheme graphQLEndpoint "ws"))
  else if graphQLEndpoint.scheme = "https" then
    .ok (httpEndpoint, uriToString (withScheme graphQLEndpoint "wss"))
  else
    .error (.jsError ("Unrecognized scheme for the server endpoint: " ++ graphQLEndpoint.scheme))

/-- Endpoints produced by `GraphQLConfig.create` (without query-based sync):
the root-placeholder rewrite followed by the constructor's derivation. -/
def createEndpoints (server : String) (realmPath : String) (identity : Option String) :
    Except JsErr (String × String) :=
  deriveEndpoints server (rewriteRealmPath realmPath identity)

/-- The refresh scheduled by the constructor: `if (accessToken.expires)`
(JS truthiness: `null`, `undefined` and `0` are falsy) then
`refreshToken(accessToken.expires - Date.now() - 10000)`.  Returns the
scheduled delay, or `none` when no refresh is scheduled. -/
def constructorScheduledDelay (accessToken : AccessToken) (now : Int) : Option Int :=
  if jsTruthyNum accessToken.expires then some (jsNumOr0 accessToken.expires - now - 10000)
  else none

/-- What one fired `refreshToken` continuation does next. -/
inductive RefreshAction where
  | stop
  | scheduleNext (delay : Int)
  | retry (delay : Int)
  | giveUp
deriving Repr, DecidableEq

/-- Whether an action leaves a further timer pending (a recursive
`refreshToken` call, whose first step is `await this.delay(...)`). -/
def RefreshAction.schedulesTimer : RefreshAction → Bool
  | .stop => false
  | .scheduleNext _ => true
  | .retry _ => true
  | .giveUp => false

/-- Observable outcome of one fired `refreshToken` continuation. -/
structure RefreshStep where
  action : RefreshAction
  handlerInvoked : Bool
  networkCalled : Bool
  newToken : Option String
deriving Repr, DecidableEq

/-- The retry decision on the failure path of `refreshToken`:
`shouldRetry = !this.authErrorHandler(e) && shouldRetry` when a handler is
present, then `if (shouldRetry)`. -/
def retryDecision (handler : Option (JsErr → Bool)) (e : JsErr) (shouldRetry : Bool) : Bool :=
  match handler with
  | some h => !h e && shouldRetry
  | none => shouldRetry

/-- One fired continuation of `GraphQLConfig.refreshToken(afterDelay,
shouldRetry)` in `GraphqlConfig.ts`, after its `await this.delay(afterDelay)`:

* `if (!this.user.token) return false` — no network call, no further timer;
* on a successful `refreshAccessToken` (outcome `.ok`), assign `this.token`
  and call `refreshToken(result.expires - Date.now() - 10000)` (no null
  check here: a `null` expiry coerces to `0`);
* on a thrown error, invoke the handler when present (always, even when
  `shouldRetry` is already `false`), then retry via `refreshToken(3000)`
  exactly when the computed decision is true, else return `false`. -/
def refreshTokenStep (userToken : Option String) (handler : Option (JsErr → Bool))
    (outcome : Except JsErr AccessToken) (now : Int) (oldToken : Option String)
    (shouldRetry : Bool) : RefreshStep :=
  if !jsTruthyStr userToken then
    { action := .stop, handlerInvoked := false, networkCalled := false, newToken := oldToken }
  else
    match outcome with
    | .ok result =>
      { action := .scheduleNext (jsNumOr0 result.expires - now - 10000),
        handlerInvoked := false, networkCalled := true, newToken := result.token }
    | .error e =>
      { action := if retryDecision handler e shouldRetry then .retry 3000 else .giveUp,
        handlerInvoked := handler.isSome, networkCalled := true, newToken := oldToken }

/-- The actions of successive fired continuations, fed one refresh outcome
per network attempt.  Every recursive `refreshToken` call passes no second
argument, so each subsequent continuation runs with `shouldRetry = true`;
the trace ends when a continuation leaves no timer pending. -/
def refreshTrace (userToken : Option String) (handler : Option (JsErr → Bool))
    (oldToken : Option String) (now : Int) :
    List (Except JsErr AccessToken) → List RefreshAction
  | [] => []
  | o :: os =>
    let st := refreshTokenStep userToken handler o now oldToken true
    if st.action.schedulesTimer then
      st.action :: refreshTrace userToken handler st.newToken now os
    else [st.action]

end GraphQLConfig

/-! ### Lemmas about first-occurrence search and replacement -/

/-- When the pattern does not occur, replacement is the identity. -/
theorem replaceFirstList_of_none (s pat rep : List Char)
    (h : firstIdxList s pat = none) : replaceFirstList s pat rep = s := by
  induction s with
  | nil =>
    by_cases hb : listStartsWith [] pat
    · simp [firstIdxList, hb] at h
    · simp [replaceFirstList, hb]
  | cons c rest ih =>
    by_cases hb : listStartsWith (c :: rest) pat
    · simp [firstIdxList, hb] at h
    · simp only [firstIdxList, hb, Bool.false_eq_true, if_false] at h
      cases hfi : firstIdxList rest pat with
      | none => simp [replaceFirstList, hb, ih hfi]
      | some k => rw [hfi] at h; simp at h

/-- Replacement splices `rep` in at the first occurrence and keeps the rest
of the list — in particular everything after the first occurrence, including
any later occurrences — verbatim. -/
theorem replaceFirstList_of_some (s pat rep : List Char) :
    ∀ i, firstIdxList s pat = some i →
      replaceFirstList s pat rep = s.take i ++ rep ++ s.drop (i + pat.length) := by
  induction s with
  | nil =>
    intro i h
    by_cases hb : listStartsWith [] pat
    · simp only [firstIdxList, hb, if_true, Option.some_inj] at h
      subst h
      simp [replaceFirstList, hb]
    · simp [firstIdxList, hb] at h
  | cons c rest ih =>
    intro i h
    by_cases hb : listStartsWith (c :: rest) pat
    · simp only [firstIdxList, hb, if_true, Option.some_inj] at h
      subst h
      simp [replaceFirstList, hb]
    · simp only [firstIdxList, hb, Bool.false_eq_true, if_false] at h
      cases hfi : firstIdxList rest pat with
      | none => rw [hfi] at h; simp at h
      | some k =>
        rw [hfi] at h
        simp only [Option.map, Option.some_inj] at h
        subst h
        have harith : k + 1 + pat.length = (k + pat.length) + 1 := by omega
        simp [replaceFirstList, hb, ih k hfi, harith]

/-- The index returned by `firstIdxList` is an occurrence. -/
theorem firstIdxList_isOccurrence (s pat : List Char) :
    ∀ i, firstIdxList s pat = some i → listStartsWith (s.drop i) pat = true := by
  induction s with
  | nil =>
    intro i h
    by_cases hb : listStartsWith [] pat
    · simp only [firstIdxList, hb, if_true, Option.some_inj] at h
      subst h
      simpa using hb
    · simp [firstIdxList, hb] at h
  | cons c rest ih =>
    intro i h
    by_cases hb : listStartsWith (c :: rest) pat
    · simp only [firstIdxList, hb, if_true, Option.some_inj] at h
      subst h
      simpa using hb
    · simp only [firstIdxList, hb, Bool.false_eq_true, if_false] at h
      cases hfi : firstIdxList rest pat with
      | none => rw [hfi] at h; simp at h
      | some k =>
        rw [hfi] at h
        simp only [Option.map, Option.some_inj] at h
        subst h
        simpa using ih k hfi

/-- The index returned by `firstIdxList` is the first occurrence: no earlier
position starts the pattern. -/
theorem firstIdxList_isFirst (s pat : List Char) :
    ∀ i, firstIdxList s pat = some i →
      ∀ j, j < i → listStartsWith (s.drop j) pat = false := by
  induction s with
  | nil =>
    intro i h j hj
    by_cases hb : listStartsWith [] pat
    · simp only [firstIdxList, hb, if_true, Option.some_inj] at h
      omega
    · simp [firstIdxList, hb] at h
  | cons c rest ih =>
    intro i h j hj
    by_cases hb : listStartsWith (c :: rest) pat
    · simp only [firstIdxList, hb, if_true, Option.some_inj] at h
      omega
    · simp only [firstIdxList, hb, Bool.false_eq_true, if_false] at h
      cases hfi : firstIdxList rest pat with
      | none => rw [hfi] at h; simp at h
      | some k =>
        rw [hfi] at h
        simp only [Option.map, Option.some_inj] at h
        subst h
        cases j with
        | zero => simpa using hb
        | succ j => simpa using ih k hfi j (by omega)

/-! ### Claim theorems -/

/-- C9: every public credential constructor returns a payload whose
`provider` equals its fixed documented discriminant (facebook, google,
password, azuread, jwt, __admin, __anonymous) and whose `data` is the
caller-supplied token/username verbatim (`null` for anonymous); the
username/password variant additionally embeds
`\x7b register: createUser || false, password \x7d` in `user_info`. -/
theorem Credentials.factory_payloads (fb go un pw az jw ad : String)
    (createUser : Option Bool) :
    Credentials.facebook fb = { data := some fb, provider := "facebook" } ∧
    Credentials.google go = { data := some go, provider := "google" } ∧
    Credentials.usernamePassword un pw createUser
      = { data := some un, provider := "password",
          user_info := some { register := createUser.getD false, password := pw } } ∧
    Credentials.azureAD az = { data := some az, provider := "azuread" } ∧
    Credentials.jwt jw = { data := some jw, provider := "jwt" } ∧
    Credentials.admin ad = { data := some ad, provider := "__admin" } ∧
    Credentials.anonymous = { data := none, provider := "__anonymous" } :=
  ⟨rfl, rfl, rfl, rfl, rfl, rfl, rfl⟩

/-- C7: `User.logOut` always establishes `token = null`: whatever the
`revoke` call does — succeed, or throw on a network failure or error
response — the `catch` swallows it, the (total) function returns normally,
and the client-side token is cleared. -/
theorem User.logout_clears_token (user : User) (revokeResult : Except JsErr Unit) :
    User.logOut user revokeResult = { user with token := none } ∧
    (User.logOut user revokeResult).token = none := by
  cases revokeResult <;> exact ⟨rfl, rfl⟩

/-- C4: `refreshAccessToken` on a non-admin, non-anonymous user with a
server set turns a 200 response into an `AccessToken` whose `token` is
`body.access_token.token` and whose expiry is
`body.access_token.token_data.expires * 1000` — the server value scaled to
milliseconds verbatim, not re-interpreted as a duration from the current
time (no `now` enters the computation). -/
theorem AuthenticationHelper.refresh_access_token_conversion
    (user : User) (realmPath : String) (resp : RefreshResponse)
    (hserver : user.server ≠ "")
    (hanon : (user.identity.isNone && user.token.isNone) = false)
    (hadmin : user.isTokenUser = false)
    (hstatus : resp.status = 200) :
    AuthenticationHelper.refreshAccessToken user realmPath resp
      = .ok { token := some resp.body.access_token.token,
              expires := some (resp.body.access_token.token_data.expires * 1000) } := by
  simp [AuthenticationHelper.refreshAccessToken, hserver, hanon, hadmin, hstatus]

/-- Witness for C4 at a concrete user and response. -/
theorem AuthenticationHelper.refresh_access_token_conversion_witness :
    ({ identity := some "u1", isAdmin := false, server := "http://h:9080",
       token := some "rt", isTokenUser := false } : User).server ≠ "" ∧
    AuthenticationHelper.refreshAccessToken
        { identity := some "u1", isAdmin := false, server := "http://h:9080",
          token := some "rt", isTokenUser := false }
        "/u1/test"
        { status := 200, statusText := "OK",
          body := { access_token := { token := "at", token_data := { expires := 42 } } } }
      = .ok { token := some "at", expires := some (42 * 1000) } :=
  ⟨by decide,
   AuthenticationHelper.refresh_access_token_conversion
     { identity := some "u1", isAdmin := false, server := "http://h:9080",
       token := some "rt", isTokenUser := false }
     "/u1/test"
     { status := 200, statusText := "OK",
       body := { access_token := { token := "at", token_data := { expires := 42 } } } }
     (by decide) rfl rfl rfl⟩

/-- C6: `authenticate` with provider `__anonymous` returns a user with
`identity = null`, `token = null`, `isAdmin = false`, and with provider
`__admin` returns a user with `identity = "__admin"`, `isAdmin = true` and
the supplied admin token; in both cases the result is independent of any
login response and the guard of the `fetch` call is false (no network
request).  `refreshAccessToken` on the resulting admin user is likewise
independent of any refresh response, never reaches `fetch`, and returns the
same token with a `null` (never-expiring) expiry. -/
theorem AuthenticationHelper.short_circuit_providers (server adminToken : String)
    (hscheme : (parseURI server).scheme = "http" ∨ (parseURI server).scheme = "https") :
    (∀ resp : AuthResponse,
      (AuthenticationHelper.authenticate Credentials.anonymous server resp).fst
        = .ok { identity := none, isAdmin := false, server := server, token := none }) ∧
    AuthenticationHelper.authenticateReachesFetch Credentials.anonymous server = false ∧
    (∀ resp : AuthResponse,
      (AuthenticationHelper.authenticate (Credentials.admin adminToken) server resp).fst
        = .ok { identity := some "__admin", isAdmin := true, server := server,
                token := some adminToken, isTokenUser := true }) ∧
    AuthenticationHelper.authenticateReachesFetch (Credentials.admin adminToken) server
      = false ∧
    (∀ (realmPath : String) (resp : RefreshResponse),
      AuthenticationHelper.refreshAccessToken
          { identity := some "__admin", isAdmin := true, server := server,
            token := some adminToken, isTokenUser := true } realmPath resp
        = .ok { token := some adminToken, expires := none }) ∧
    AuthenticationHelper.refreshReachesFetch
        { identity := some "__admin", isAdmin := true, server := server,
          token := some adminToken, isTokenUser := true } = false := by
  have hne : server ≠ "" := by
    rintro rfl
    have hs : (parseURI "").scheme = "" := rfl
    rcases hscheme with h | h <;> rw [hs] at h <;> exact absurd h (by decide)
  refine ⟨fun resp => ?_, ?_, fun resp => ?_, ?_, fun realmPath resp => ?_, ?_⟩ <;>
    rcases hscheme with h | h <;>
      simp [AuthenticationHelper.authenticate, AuthenticationHelper.authenticateReachesFetch,
        AuthenticationHelper.refreshAccessToken, AuthenticationHelper.refreshReachesFetch,
        withPath, Credentials.anonymous, Credentials.admin, h, hne]

/-- Witness for C6 at a concrete server and responses. -/
theorem AuthenticationHelper.short_circuit_providers_witness :
    ((parseURI "http://h:9080").scheme = "http" ∨
      (parseURI "http://h:9080").scheme = "https") ∧
    (AuthenticationHelper.authenticate Credentials.anonymous "http://h:9080"
        { status := 401, statusText := "nope",
          body := { refresh_token :=
            { token := "x", token_data := { identity := "y", is_admin := false } } } }).fst
      = .ok { identity := none, isAdmin := false, server := "http://h:9080",
              token := none } ∧
    AuthenticationHelper.refreshAccessToken
        { identity := some "__admin", isAdmin := true, server := "http://h:9080",
          token := some "adm", isTokenUser := true } "/u1/test"
        { status := 500, statusText := "err",
          body := { access_token := { token := "z", token_data := { expires := 7 } } } }
      = .ok { token := some "adm", expires := none } :=
  ⟨Or.inl rfl,
   (AuthenticationHelper.short_circuit_providers "http://h:9080" "adm" (Or.inl rfl)).1
     { status := 401, statusText := "nope",
       body := { refresh_token :=
         { token := "x", token_data := { identity := "y", is_admin := false } } } },
   (AuthenticationHelper.short_circuit_providers "http://h:9080" "adm"
       (Or.inl rfl)).2.2.2.2.1 "/u1/test"
     { status := 500, statusText := "err",
       body := { access_token := { token := "z", token_data := { expires := 7 } } } }⟩

/-- C8 counterexample: `authenticate` does NOT leave the caller's
credentials exactly as constructed — with a factory-built Facebook
credential and a valid server it executes
`(credentials as any).app_id = ''` on the caller's object, so after the
call the credentials differ from `Credentials.facebook "fb-token"` (they
now carry `app_id = ""`). -/
theorem AuthenticationHelper.authenticate_mutates_credentials :
    (AuthenticationHelper.authenticate (Credentials.facebook "fb-token") "http://h:9080"
        { status := 200, statusText := "OK",
          body := { refresh_token :=
            { token := "rt", token_data := { identity := "u1", is_admin := false } } } }).snd
      ≠ Credentials.facebook "fb-token" := by decide

/-- C8 amended: `authenticate` never changes the `provider`, `data` or
`user_info` of the caller's credentials, and leaves the object entirely
untouched on the anonymous/admin short-circuits and on scheme-validation
failure; but on the network path (the `fetch` guard) it mutates the
caller's object by setting `app_id = ""` before serializing it. -/
theorem AuthenticationHelper.credentials_mutation_extent
    (creds : Credentials) (server : String) (resp : AuthResponse) :
    (AuthenticationHelper.authenticate creds server resp).snd
      = (if AuthenticationHelper.authenticateReachesFetch creds server
         then { creds with app_id := some "" } else creds) ∧
    (AuthenticationHelper.authenticate creds server resp).snd.provider = creds.provider ∧
    (AuthenticationHelper.authenticate creds server resp).snd.data = creds.data ∧
    (AuthenticationHelper.authenticate creds server resp).snd.user_info
      = creds.user_info := by
  have hsplit : (AuthenticationHelper.authenticate creds server resp).snd
      = (if AuthenticationHelper.authenticateReachesFetch creds server
         then { creds with app_id := some "" } else creds) := by
    by_cases h1 : (parseURI server).scheme = "http" <;>
      by_cases h2 : (parseURI server).scheme = "https" <;>
        by_cases h3 : creds.provider = "__anonymous" <;>
          by_cases h4 : creds.provider = "__admin" <;>
            simp [AuthenticationHelper.authenticate,
              AuthenticationHelper.authenticateReachesFetch, withPath, h1, h2, h3, h4] <;>
            split <;> rfl
  refine ⟨hsplit, ?_, ?_, ?_⟩ <;> rw [hsplit] <;> split <;> rfl

/-- C5: for `server = "http://h:9080"`, `realmPath = "/~/test"` and
`identity = "u1"`, the derived `httpEndpoint` is
`http://h:9080/graphql/%2Fu1%2Ftest` (root-placeholder substitution, then
URI segment encoding) and `webSocketEndpoint` is the same URI with scheme
`ws`; with an `https` server the WebSocket scheme is `wss`; and any server
whose scheme is neither `http` nor `https` makes construction throw. -/
theorem GraphQLConfig.endpoint_resolution :
    GraphQLConfig.createEndpoints "http://h:9080" "/~/test" (some "u1")
      = .ok ("http://h:9080/graphql/%2Fu1%2Ftest", "ws://h:9080/graphql/%2Fu1%2Ftest") ∧
    GraphQLConfig.createEndpoints "https://h:9080" "/~/test" (some "u1")
      = .ok ("https://h:9080/graphql/%2Fu1%2Ftest", "wss://h:9080/graphql/%2Fu1%2Ftest") ∧
    ∀ (server realmPath : String) (identity : Option String),
      (parseURI server).scheme ≠ "http" → (parseURI server).scheme ≠ "https" →
      GraphQLConfig.createEndpoints server realmPath identity
        = .error (.jsError ("Unrecognized scheme for the server endpoint: "
            ++ (parseURI server).scheme)) := by
  refine ⟨rfl, rfl, fun server realmPath identity h1 h2 => ?_⟩
  simp [GraphQLConfig.createEndpoints, GraphQLConfig.deriveEndpoints, segmentCoded, h1, h2]

/-- Witness for C5's universal conjunct at the concrete scheme `ftp`. -/
theorem GraphQLConfig.endpoint_resolution_witness :
    (parseURI "ftp://h:1").scheme ≠ "http" ∧ (parseURI "ftp://h:1").scheme ≠ "https" ∧
    GraphQLConfig.createEndpoints "ftp://h:1" "/~/test" (some "u1")
      = .error (.jsError ("Unrecognized scheme for the server endpoint: "
          ++ (parseURI "ftp://h:1").scheme)) :=
  ⟨by decide, by decide,
   GraphQLConfig.endpoint_resolution.2.2 "ftp://h:1" "/~/test" (some "u1")
     (by decide) (by decide)⟩

/-- C10: the root-placeholder rewrite in `GraphQLConfig.create` substitutes
only the FIRST occurrence of the exact substring `/~/` (replacing it by
`/identity/`): when `/~/` does not occur the path is unchanged; when it
first occurs at index `i`, the result splices `/identity/` in at `i`,
keeping everything after it — any later `/~/` occurrences included —
verbatim, and no earlier index starts `/~/`; a `~` not in the exact form
`/~/` (for example a path beginning `~/`) passes through unchanged. -/
theorem GraphQLConfig.realm_path_rewrite_first_occurrence (s identity : String) :
    (firstIdxList s.data "/~/".data = none →
      GraphQLConfig.rewriteRealmPath s (some identity) = s) ∧
    (∀ i, firstIdxList s.data "/~/".data = some i →
      GraphQLConfig.rewriteRealmPath s (some identity)
          = String.mk (s.data.take i ++ ("/" ++ identity ++ "/").data ++ s.data.drop (i + 3)) ∧
        listStartsWith (s.data.drop i) "/~/".data = true ∧
        (∀ j, j < i → listStartsWith (s.data.drop j) "/~/".data = false)) ∧
    GraphQLConfig.rewriteRealmPath "/~/a/~/b" (some "u1") = "/u1/a/~/b" ∧
    GraphQLConfig.rewriteRealmPath "a/~/b/~/c/~/d" (some "u1") = "a/u1/b/~/c/~/d" ∧
    GraphQLConfig.rewriteRealmPath "~/test" (some "u1") = "~/test" := by
  refine ⟨fun h => ?_, fun i h => ⟨?_, firstIdxList_isOccurrence s.data "/~/".data i h,
    firstIdxList_isFirst s.data "/~/".data i h⟩, rfl, rfl, rfl⟩
  · show String.mk (replaceFirstList s.data "/~/".data ("/" ++ identity ++ "/").data) = s
    rw [replaceFirstList_of_none s.data "/~/".data ("/" ++ identity ++ "/").data h]
  · show String.mk (replaceFirstList s.data "/~/".data ("/" ++ identity ++ "/").data) = _
    rw [replaceFirstList_of_some s.data "/~/".data ("/" ++ identity ++ "/").data i h]
    rfl

/-- Witness for C10's conditional conjuncts at concrete paths. -/
theorem GraphQLConfig.realm_path_rewrite_first_occurrence_witness :
    (firstIdxList "abc".data "/~/".data = none ∧
      GraphQLConfig.rewriteRealmPath "abc" (some "u1") = "abc") ∧
    (firstIdxList "a/~/b".data "/~/".data = some 1 ∧
      GraphQLConfig.rewriteRealmPath "a/~/b" (some "u1")
        = String.mk ("a/~/b".data.take 1 ++ ("/" ++ "u1" ++ "/").data
            ++ "a/~/b".data.drop (1 + 3))) :=
  ⟨⟨by decide, (GraphQLConfig.realm_path_rewrite_first_occurrence "abc" "u1").1 (by decide)⟩,
   ⟨by decide, ((GraphQLConfig.realm_path_rewrite_first_occurrence "a/~/b" "u1").2.1 1
      (by decide)).1⟩⟩

/-- C1: for a failed refresh fired by the background loop (every recursive
`refreshToken` call passes no second argument, so `shouldRetry = true`): a
supplied `authErrorHandler` is invoked in every case — even when
`shouldRetry` is already `false` from a forced call; a handler returning
`true` suppresses the retry; a handler returning `false` — or no handler —
schedules a retry after exactly 3000 ms; and a run of consecutive failures
retries after the same fixed 3000 ms every time, for arbitrarily many
failures, with no exponential increase. -/
theorem GraphQLConfig.refresh_failure_policy
    (userToken oldToken : Option String) (handler : Option (JsErr → Bool))
    (e : JsErr) (now : Int)
    (htok : jsTruthyStr userToken = true) :
    (∀ sr : Bool,
      (GraphQLConfig.refreshTokenStep userToken handler (.error e) now oldToken
        sr).handlerInvoked = handler.isSome) ∧
    (∀ h, handler = some h → h e = true →
      (GraphQLConfig.refreshTokenStep userToken handler (.error e) now oldToken true).action
        = .giveUp) ∧
    (∀ h, handler = some h → h e = false →
      (GraphQLConfig.refreshTokenStep userToken handler (.error e) now oldToken true).action
        = .retry 3000) ∧
    (handler = none →
      (GraphQLConfig.refreshTokenStep userToken handler (.error e) now oldToken true).action
        = .retry 3000) ∧
    (∀ failures : List JsErr,
      (∀ h, handler = some h → ∀ x, h x = false) →
      GraphQLConfig.refreshTrace userToken handler oldToken now (failures.map .error)
        = failures.map (fun _ => .retry 3000)) := by
  refine ⟨fun sr => ?_, fun h hh hhe => ?_, fun h hh hhe => ?_, fun hh => ?_,
    fun failures hh => ?_⟩
  · simp [GraphQLConfig.refreshTokenStep, htok]
  · subst hh
    simp [GraphQLConfig.refreshTokenStep, GraphQLConfig.retryDecision, htok, hhe]
  · subst hh
    simp [GraphQLConfig.refreshTokenStep, GraphQLConfig.retryDecision, htok, hhe]
  · subst hh
    simp [GraphQLConfig.refreshTokenStep, GraphQLConfig.retryDecision, htok]
  · induction failures with
    | nil => rfl
    | cons x xs ih =>
      have hx : GraphQLConfig.retryDecision handler x true = true := by
        cases handler with
        | none => rfl
        | some h => simp [GraphQLConfig.retryDecision, hh h rfl x]
      simp [GraphQLConfig.refreshTrace, GraphQLConfig.refreshTokenStep, htok, hx,
        GraphQLConfig.RefreshAction.schedulesTimer, ih]

/-- Witness for C1 at a concrete logged-in user and a concrete failure. -/
theorem GraphQLConfig.refresh_failure_policy_witness :
    jsTruthyStr (some "refresh-token") = true ∧
    (GraphQLConfig.refreshTokenStep (some "refresh-token") none
        (.error (.authError 500 "server error")) 0 (some "t") true).action = .retry 3000 ∧
    GraphQLConfig.refreshTrace (some "refresh-token") none (some "t") 0
        [.error (.authError 500 "a"), .error (.authError 502 "b"), .error (.authError 504 "c")]
      = [.retry 3000, .retry 3000, .retry 3000] :=
  ⟨rfl,
   (GraphQLConfig.refresh_failure_policy (some "refresh-token") (some "t") none
      (.authError 500 "server error") 0 rfl).2.2.2.1 rfl,
   (GraphQLConfig.refresh_failure_policy (some "refresh-token") (some "t") none
      (.authError 500 "server error") 0 rfl).2.2.2.2
     [.authError 500 "a", .authError 502 "b", .authError 504 "c"]
     (fun h hh => by cases hh)⟩

/-- C2 counterexample: the null-token check is NOT the sole termination
path of the loop — a fired continuation with a logged-in user (token
non-null) whose refresh fails and whose `authErrorHandler` returns `true`
returns `false` without scheduling any further timer, so the loop also
terminates there. -/
theorem GraphQLConfig.refresh_termination_without_logout :
    jsTruthyStr (some "rt") = true ∧
    (GraphQLConfig.refreshTokenStep (some "rt") (some (fun _ => true))
        (.error (.authError 401 "unauthorized")) 0 (some "t") true).action
      = .giveUp ∧
    GraphQLConfig.RefreshAction.schedulesTimer
        (GraphQLConfig.refreshTokenStep (some "rt") (some (fun _ => true))
          (.error (.authError 401 "unauthorized")) 0 (some "t") true).action
      = false :=
  ⟨rfl, rfl, rfl⟩

/-- C2 amended: when the user's token is null (or empty — JS falsy) the
fired continuation performs no network call and schedules no further timer,
so the loop terminates; this null-token check is the sole termination path
of the SUCCESS path (a successful refresh always schedules a next timer);
the only other way a fired continuation leaves no timer pending is a failed
refresh whose computed retry decision is false (handler returned `true`, or
a forced call passed `shouldRetry = false`). -/
theorem GraphQLConfig.refresh_loop_termination_paths
    (userToken oldToken : Option String) (handler : Option (JsErr → Bool))
    (outcome : Except JsErr AccessToken) (now : Int) (sr : Bool) :
    (jsTruthyStr userToken = false →
      (GraphQLConfig.refreshTokenStep userToken handler outcome now oldToken sr).action
          = .stop ∧
        (GraphQLConfig.refreshTokenStep userToken handler outcome now oldToken
          sr).networkCalled = false) ∧
    (jsTruthyStr userToken = true → ∀ result, outcome = .ok result →
      (GraphQLConfig.refreshTokenStep userToken handler outcome now oldToken sr).action
        = .scheduleNext (jsNumOr0 result.expires - now - 10000)) ∧
    (GraphQLConfig.RefreshAction.schedulesTimer
        (GraphQLConfig.refreshTokenStep userToken handler outcome now oldToken sr).action
          = false →
      jsTruthyStr userToken = false ∨
        ∃ e, outcome = .error e ∧ GraphQLConfig.retryDecision handler e sr = false) := by
  refine ⟨fun htok => ?_, fun htok result hres => ?_, fun hterm => ?_⟩
  · exact ⟨by simp [GraphQLConfig.refreshTokenStep, htok],
      by simp [GraphQLConfig.refreshTokenStep, htok]⟩
  · subst hres
    simp [GraphQLConfig.refreshTokenStep, htok]
  · by_cases htok : jsTruthyStr userToken = true
    · right
      cases outcome with
      | ok result =>
        simp [GraphQLConfig.refreshTokenStep, htok,
          GraphQLConfig.RefreshAction.schedulesTimer] at hterm
      | error e =>
        refine ⟨e, rfl, ?_⟩
        by_cases hrd : GraphQLConfig.retryDecision handler e sr = true
        · simp [GraphQLConfig.refreshTokenStep, htok, hrd,
            GraphQLConfig.RefreshAction.schedulesTimer] at hterm
        · simpa using hrd
    · left
      simpa using htok

/-- Witness for C2's amended theorem: a logged-out user's continuation
stops with no network call. -/
theorem GraphQLConfig.refresh_loop_termination_paths_witness :
    jsTruthyStr none = false ∧
    (GraphQLConfig.refreshTokenStep none none (.error (.authError 500 "e")) 0 none
        true).action = .stop ∧
    (GraphQLConfig.refreshTokenStep none none (.error (.authError 500 "e")) 0 none
        true).networkCalled = false :=
  ⟨rfl,
   ((GraphQLConfig.refresh_loop_termination_paths none none none
      (.error (.authError 500 "e")) 0 true).1 rfl).1,
   ((GraphQLConfig.refresh_loop_termination_paths none none none
      (.error (.authError 500 "e")) 0 true).1 rfl).2⟩

/-- C3 counterexample: an access token with the finite (non-null) expiry
`0` is falsy in JS, so the constructor's `if (accessToken.expires)` guard
schedules NO refresh for it — not one with delay `expires - now - 10000` as
the claim requires for every non-null expiry. -/
theorem GraphQLConfig.zero_expiry_schedules_nothing :
    GraphQLConfig.constructorScheduledDelay { token := some "t", expires := some 0 } 5
      = none ∧
    (some ((0 : Int) - 5 - 10000) : Option Int) ≠ none :=
  ⟨rfl, by decide⟩

/-- C3 amended: whenever the expiry is non-null AND non-zero (JS truthy),
the constructor schedules the next refresh with delay exactly
`expires - now - 10000` (for an expiry of `now + 20000` that is exactly
10000 ms); a null — or zero — expiry at construction schedules no refresh
at all; and a successful background refresh always schedules
`expires - now - 10000` for a non-null expiry, with no truthiness guard. -/
theorem GraphQLConfig.refresh_scheduling_ten_seconds_early
    (tok userToken oldToken : Option String) (handler : Option (JsErr → Bool))
    (expires now : Int) (sr : Bool)
    (htok : jsTruthyStr userToken = true) :
    (expires ≠ 0 →
      GraphQLConfig.constructorScheduledDelay { token := tok, expires := some expires } now
        = some (expires - now - 10000)) ∧
    GraphQLConfig.constructorScheduledDelay { token := tok, expires := none } now = none ∧
    (GraphQLConfig.refreshTokenStep userToken handler
        (.ok { token := tok, expires := some expires }) now oldToken sr).action
      = .scheduleNext (expires - now - 10000) ∧
    (now + 20000 ≠ 0 →
      GraphQLConfig.constructorScheduledDelay
          { token := tok, expires := some (now + 20000) } now
        = some 10000) := by
  refine ⟨fun hexp => ?_, rfl, ?_, fun h20 => ?_⟩
  · simp [GraphQLConfig.constructorScheduledDelay, jsTruthyNum, jsNumOr0, hexp]
  · simp [GraphQLConfig.refreshTokenStep, htok, jsNumOr0]
  · have : now + 20000 - now - 10000 = 10000 := by omega
    simp [GraphQLConfig.constructorScheduledDelay, jsTruthyNum, jsNumOr0, h20, this]

/-- Witness for C3's amended theorem: the guarded constructor at
`expires = 30000`, `now = 0`, the UNguarded background-success path at the
falsy expiry `0` (`now = 5`), and the `now + 20000` instance. -/
theorem GraphQLConfig.refresh_scheduling_ten_seconds_early_witness :
    jsTruthyStr (some "rt") = true ∧
    ((30000 : Int) ≠ 0 ∧
      GraphQLConfig.constructorScheduledDelay
          { token := some "t", expires := some 30000 } 0
        = some ((30000 : Int) - 0 - 10000)) ∧
    (GraphQLConfig.refreshTokenStep (some "rt") none
        (.ok { token := some "t", expires := some 0 }) 5 (some "old") true).action
      = .scheduleNext ((0 : Int) - 5 - 10000) ∧
    ((0 : Int) + 20000 ≠ 0 →
      GraphQLConfig.constructorScheduledDelay
          { token := some "t", expires := some ((0 : Int) + 20000) } 0
        = some 10000) :=
  ⟨rfl,
   ⟨by decide,
    (GraphQLConfig.refresh_scheduling_ten_seconds_early (some "t") (some "rt") none none
       30000 0 true rfl).1 (by decide)⟩,
   (GraphQLConfig.refresh_scheduling_ten_seconds_early (some "t") (some "rt") (some "old")
      none 0 5 true rfl).2.2.1,
   (GraphQLConfig.refresh_scheduling_ten_seconds_early (some "t") (some "rt") none none
      30000 0 true rfl).2.2.2⟩

end RealmGraphQL
